import Mathlib

/-!
Shallow embedding of the statistics scripts `exercise1.py` and `exercise2.py`
of the heart-disease repository, together with proofs of the specified
properties of their core routines: percentile computation by linear
interpolation, IQR-fence outlier detection, exceedance probability, random
subsampling, input validation, and the gender comparison over the
heart-disease table. Machine floats of the source are modelled by exact
rationals, so every arithmetic identity below is exact.
-/

namespace HeartStats

/-- Error kinds raised by the Python functions of `exercise1.py`:
`typeMismatch` models Python `TypeError` (the spec's `TypeMismatch` kind) and
`invalidInput` models Python `ValueError` (the spec's `InvalidInput` kind). -/
inductive StatError where
  | typeMismatch
  | invalidInput
  deriving DecidableEq, Repr

/-- Decidable equality of `Except` results, so that concrete runs of the
embedded functions can be checked by `decide`. -/
instance exceptDecidableEq {ε α : Type} [DecidableEq ε] [DecidableEq α] :
    DecidableEq (Except ε α) := fun x y =>
  match x, y with
  | .error e, .error e' =>
    if h : e = e' then .isTrue (by rw [h]) else .isFalse (fun hc => h (Except.error.inj hc))
  | .error _, .ok _ => .isFalse (fun hc => Except.noConfusion hc)
  | .ok _, .error _ => .isFalse (fun hc => Except.noConfusion hc)
  | .ok a, .ok b =>
    if h : a = b then .isTrue (by rw [h]) else .isFalse (fun hc => h (Except.ok.inj hc))

/-- A Python scalar argument as passed to `generate_height_data`: an `int`,
a `float` (modelled exactly by a rational), or a non-numeric value such as a
string. -/
inductive PyVal where
  | pyInt (n : ℤ)
  | pyFloat (q : ℚ)
  | pyStr (s : String)
  deriving DecidableEq, Repr

/-- Python `isinstance(v, int)`. -/
def PyVal.isInt : PyVal → Bool
  | .pyInt _ => true
  | _ => false

/-- Python `isinstance(v, (int, float))`. -/
def PyVal.isNumeric : PyVal → Bool
  | .pyInt _ => true
  | .pyFloat _ => true
  | _ => false

/-- The numeric value of a Python scalar; 0 for non-numeric values, which the
validation paths never compare. -/
def PyVal.toRat : PyVal → ℚ
  | .pyInt n => (n : ℚ)
  | .pyFloat q => q
  | .pyStr _ => 0

/-- Validation logic of `generate_height_data` (exercise1.py lines 23-33),
branch for branch in source order. The `np.random.normal` draw itself is an
external library call, so the embedding returns `Unit` on success. Note the
source's last check: a non-numeric `std_dev` short-circuits into the same
`ValueError` branch as a non-positive one. -/
def generate_height_data (size mean std_dev : PyVal) : Except StatError Unit :=
  if size.isInt = false then .error .typeMismatch
  else if size.toRat ≤ 0 then .error .invalidInput
  else if mean.isNumeric = false then .error .typeMismatch
  else if std_dev.isNumeric = false ∨ std_dev.toRat ≤ 0 then .error .invalidInput
  else .ok ()

/-- Ascending sort of the data: Python's `sorted` builtin, and also the sort
`np.percentile` and `np.median` perform internally. -/
def pySorted (data : List ℚ) : List ℚ :=
  data.insertionSort (· ≤ ·)

/-- Arithmetic mean, `np.mean`. -/
def np_mean (data : List ℚ) : ℚ :=
  data.sum / (data.length : ℚ)

/-- Population variance, the square of `np.std`. The standard deviation
itself is an irrational square root, so the summary record carries the
variance; every claim below inspects only the validation path, never this
component's value. -/
def np_var (data : List ℚ) : ℚ :=
  ((data.map (fun x => (x - np_mean data) ^ 2)).sum) / (data.length : ℚ)

/-- Median, `np.median`: middle order statistic for odd length, mean of the
two middle order statistics for even length. -/
def np_median (data : List ℚ) : ℚ :=
  let s := pySorted data
  let n := s.length
  if n % 2 = 1 then s.getD (n / 2) 0
  else (s.getD (n / 2 - 1) 0 + s.getD (n / 2) 0) / 2

/-- Embedding of `descriptive_statistics` (exercise1.py lines 35-59):
validates non-emptiness, then returns mean, spread (see `np_var`) and median.
The NumPy-array type check of the source cannot fire in the embedding, whose
input is already a numeric list. -/
def descriptive_statistics (height_data : List ℚ) : Except StatError (ℚ × ℚ × ℚ) :=
  if height_data.length = 0 then .error .invalidInput
  else .ok (np_mean height_data, np_var height_data, np_median height_data)

/-- One percentile of an ascending-sorted list by linear interpolation, as
`np.percentile` computes it with the default interpolation: the virtual rank
is `q/100 * (n-1)`; the result interpolates between the order statistics at
the floor of the rank and the next index (the second `getD` default makes the
out-of-range neighbour equal to the lower one, which only arises when the
fractional part is zero). -/
def interpAt (s : List ℚ) (r : ℚ) : ℚ :=
  s.getD (⌊r⌋).toNat 0
    + (r - ((⌊r⌋).toNat : ℚ))
      * (s.getD ((⌊r⌋).toNat + 1) (s.getD (⌊r⌋).toNat 0) - s.getD (⌊r⌋).toNat 0)

/-- `np.percentile(data, q)` for `0 ≤ q ≤ 100`: sort, then interpolate at the
virtual rank. The sort is applied by the caller. -/
def percentileLinear (s : List ℚ) (q : ℚ) : ℚ :=
  interpAt s (q / 100 * ((s.length : ℚ) - 1))

/-- Embedding of `calculate_percentile` (exercise1.py lines 84-106):
validates non-emptiness, then returns `np.percentile(height_data, [25, 50, 75])`
as a triple. -/
def calculate_percentile (height_data : List ℚ) : Except StatError (ℚ × ℚ × ℚ) :=
  if height_data.length = 0 then .error .invalidInput
  else
    let s := pySorted height_data
    .ok (percentileLinear s 25, percentileLinear s 50, percentileLinear s 75)

/-- Embedding of `identify_outliers` (exercise1.py lines 108-145): validates
non-emptiness, computes the quartiles through `calculate_percentile`, derives
the IQR and the two fences, sorts the data, and keeps the values strictly
outside the fences in sorted order. -/
def identify_outliers (height_data : List ℚ) : Except StatError (List ℚ) :=
  if height_data.length = 0 then .error .invalidInput
  else
    match calculate_percentile height_data with
    | .error e => .error e
    | .ok ps =>
      let q3 := ps.2.2
      let q1 := ps.1
      let iqr := q3 - q1
      let upper_boundary := q3 + 3/2 * iqr
      let lower_boundary := q1 - 3/2 * iqr
      let sorted_height_data := pySorted height_data
      .ok (sorted_height_data.filter
        (fun data => decide (data < lower_boundary ∨ data > upper_boundary)))

/-- Embedding of `random_sampling` (exercise1.py lines 148-170). The
randomness of `np.random.choice(height_data, 50, replace=False)` is made
explicit: `draw` is the list of positions the generator picks, and sampling
without replacement means `draw` holds 50 pairwise-distinct positions below
the data length - the hypotheses of the theorems below. -/
def random_sampling (height_data : List ℚ) (draw : List ℕ) : Except StatError (List ℚ) :=
  if height_data.length < 50 then .error .invalidInput
  else .ok (draw.map (fun i => height_data.getD i 0))

/-- Embedding of `hypothesis_testing` (exercise1.py lines 173-198). The
function's own logic is the validation; the t-statistic and
probability-value are produced by the external `scipy.stats.ttest_1samp`
call, so on success the embedding returns the arguments handed to that
call. The numeric-mean type check cannot fire on a rational argument. -/
def hypothesis_testing (data : List ℚ) (null_hypothesis_mean : ℚ) :
    Except StatError (List ℚ × ℚ) :=
  if data.length = 0 then .error .invalidInput
  else .ok (data, null_hypothesis_mean)

/-- Embedding of `calculate_probability` (exercise1.py lines 202-227):
validates non-emptiness, then returns `np.sum(data > threshold) / data.size`,
the fraction of values strictly above the threshold. -/
def calculate_probability (data : List ℚ) (threshold_height : ℚ) : Except StatError ℚ :=
  if data.length = 0 then .error .invalidInput
  else .ok ((data.countP (fun x => decide (x > threshold_height)) : ℚ) / (data.length : ℚ))

/-- The accumulation loop of `identify_outliers` (exercise1.py lines 139-143):
walk the sorted data and append each value strictly outside the fences to the
`outliers` accumulator. -/
def outlierLoop (lower_boundary upper_boundary : ℚ) : List ℚ → List ℚ → List ℚ
  | [], outliers => outliers
  | data :: rest, outliers =>
    if data < lower_boundary ∨ data > upper_boundary then
      outlierLoop lower_boundary upper_boundary rest (outliers ++ [data])
    else
      outlierLoop lower_boundary upper_boundary rest outliers

/-- The local store of one call of `identify_outliers`: the input array and
the two locals the body writes to. Used to state the frame property that the
call leaves `height_data` untouched. -/
structure OutlierStore where
  height_data : List ℚ
  sorted_height_data : List ℚ
  outliers : List ℚ
  deriving DecidableEq, Repr

/-- Statement-level rendering of the body of `identify_outliers` over an
explicit store: the validation reads `height_data`; the two assignments write
the locals `sorted_height_data` (a fresh sorted copy, Python's `sorted`
builtin returns a new list) and `outliers` (built by the append loop); the
final store is returned with the result. No statement of the source writes
into `height_data`. -/
def identify_outliers_body (st : OutlierStore) : OutlierStore × Except StatError (List ℚ) :=
  if st.height_data.length = 0 then (st, .error .invalidInput)
  else
    match calculate_percentile st.height_data with
    | .error e => (st, .error e)
    | .ok ps =>
      let q3 := ps.2.2
      let q1 := ps.1
      let iqr := q3 - q1
      let upper_boundary := q3 + 3/2 * iqr
      let lower_boundary := q1 - 3/2 * iqr
      let st1 := { st with sorted_height_data := pySorted st.height_data }
      let st2 := { st1 with
        outliers := outlierLoop lower_boundary upper_boundary st1.sorted_height_data [] }
      (st2, .ok st2.outliers)

/-- Error kinds raised by `who_suffers_more_from_disease` in `exercise2.py`:
missing columns raise `ValueError`, a non-boolean `Disease` column raises
`TypeError`, and Python integer division by zero raises `ZeroDivisionError`. -/
inductive PdError where
  | valueError
  | typeError
  | zeroDivisionError
  deriving DecidableEq, Repr

/-- One row of the heart-disease DataFrame, restricted to the two columns
`who_suffers_more_from_disease` reads: `sex` carries the raw string of the
`Sex` column and `disease` the `Disease` column. The `Row` type having a
`Bool` field is exactly the precondition the source's dtype check enforces,
so on such a frame neither validation branch of the source can fire. -/
structure Row where
  sex : String
  disease : Bool
  deriving DecidableEq, Repr

/-- Count of rows with `Sex == 'male'` and `Disease == True`
(exercise2.py line 71). -/
def men_with_disease (df : List Row) : ℕ :=
  (df.filter (fun r => r.sex == "male" && r.disease)).length

/-- Count of rows with `Sex == 'female'` and `Disease == True`
(exercise2.py line 74). -/
def women_with_disease (df : List Row) : ℕ :=
  (df.filter (fun r => r.sex == "female" && r.disease)).length

/-- Embedding of `who_suffers_more_from_disease` (exercise2.py lines 34-84)
on a frame that already has the `Sex` and `Disease` columns with a boolean
`Disease` (guaranteed by `Row`, so the two validation raises cannot fire).
The counts are Python ints, so `(higher - lower) / higher` raises
`ZeroDivisionError` when `higher = 0`; the embedding makes that raise
explicit, and otherwise computes the exact rational quotient the source
computes in floats. -/
def who_suffers_more_from_disease (df : List Row) : Except PdError (String × ℚ) :=
  let higher := max (men_with_disease df) (women_with_disease df)
  let lower := min (men_with_disease df) (women_with_disease df)
  if higher = 0 then .error .zeroDivisionError
  else
    let percentage_difference := ((higher : ℚ) - (lower : ℚ)) / (higher : ℚ) * 100
    if men_with_disease df > women_with_disease df then .ok ("men", percentage_difference)
    else .ok ("women", percentage_difference)

/-! Helper lemmas about sorted lists and the interpolation kernel. -/

theorem map_getD_range (l : List ℚ) :
    (List.range l.length).map (fun i => l.getD i 0) = l := by
  induction l with
  | nil => rfl
  | cons a l ih =>
    rw [List.length_cons, List.range_succ_eq_map, List.map_cons, List.map_map]
    simp only [List.getD_cons_zero, Function.comp_def, List.getD_cons_succ]
    rw [ih]

theorem getD_le_getD_of_sorted {s : List ℚ} (hs : s.Sorted (· ≤ ·)) {i j : ℕ}
    (hij : i ≤ j) (hj : j < s.length) (d e : ℚ) : s.getD i d ≤ s.getD j e := by
  have hi : i < s.length := lt_of_le_of_lt hij hj
  rw [List.getD_eq_getElem s d hi, List.getD_eq_getElem s e hj]
  have h := hs.rel_get_of_le (a := ⟨i, hi⟩) (b := ⟨j, hj⟩) hij
  simpa using h

theorem getD_le_getD_succ {s : List ℚ} (hs : s.Sorted (· ≤ ·)) {i : ℕ}
    (_hi : i < s.length) : s.getD i 0 ≤ s.getD (i + 1) (s.getD i 0) := by
  by_cases h : i + 1 < s.length
  · exact getD_le_getD_of_sorted hs (Nat.le_succ i) h 0 _
  · rw [List.getD_eq_default s _ (Nat.le_of_not_lt h)]

theorem interpAt_mono {s : List ℚ} (hs : s.Sorted (· ≤ ·)) {r1 r2 : ℚ}
    (h0 : 0 ≤ r1) (h12 : r1 ≤ r2) (h2 : r2 ≤ (s.length : ℚ) - 1) :
    interpAt s r1 ≤ interpAt s r2 := by
  have h02 : (0:ℚ) ≤ r2 := le_trans h0 h12
  have hf1 : 0 ≤ ⌊r1⌋ := Int.floor_nonneg.mpr h0
  have hf2 : 0 ≤ ⌊r2⌋ := Int.floor_nonneg.mpr h02
  have hc1 : (((⌊r1⌋).toNat : ℚ)) = ((⌊r1⌋ : ℤ) : ℚ) := by
    exact_mod_cast Int.toNat_of_nonneg hf1
  have hc2 : (((⌊r2⌋).toNat : ℚ)) = ((⌊r2⌋ : ℤ) : ℚ) := by
    exact_mod_cast Int.toNat_of_nonneg hf2
  have hlow1 : (((⌊r1⌋).toNat : ℚ)) ≤ r1 := by rw [hc1]; exact Int.floor_le r1
  have hupp1 : r1 < (((⌊r1⌋).toNat : ℚ)) + 1 := by rw [hc1]; exact Int.lt_floor_add_one r1
  have hlow2 : (((⌊r2⌋).toNat : ℚ)) ≤ r2 := by rw [hc2]; exact Int.floor_le r2
  have hij : (⌊r1⌋).toNat ≤ (⌊r2⌋).toNat := by
    have h := Int.floor_mono h12
    omega
  have hi2n : (⌊r2⌋).toNat < s.length := by
    have hq : ((⌊r2⌋ : ℤ) : ℚ) ≤ ((s.length : ℚ) - 1) := le_trans (Int.floor_le r2) h2
    have hz : (⌊r2⌋ : ℤ) ≤ (s.length : ℤ) - 1 := by exact_mod_cast hq
    omega
  rcases eq_or_lt_of_le hij with heq | hlt
  · have hlohi : s.getD (⌊r1⌋).toNat 0
        ≤ s.getD ((⌊r1⌋).toNat + 1) (s.getD (⌊r1⌋).toNat 0) := by
      exact getD_le_getD_succ hs (heq ▸ hi2n)
    simp only [interpAt, ← heq]
    nlinarith [mul_nonneg (sub_nonneg.mpr h12) (sub_nonneg.mpr hlohi)]
  · have hi1n : (⌊r1⌋).toNat < s.length := lt_trans hlt hi2n
    have hsucc : (⌊r1⌋).toNat + 1 < s.length := lt_of_le_of_lt hlt hi2n
    have hlohi1 : s.getD (⌊r1⌋).toNat 0
        ≤ s.getD ((⌊r1⌋).toNat + 1) (s.getD (⌊r1⌋).toNat 0) :=
      getD_le_getD_succ hs hi1n
    have hdef1 : s.getD ((⌊r1⌋).toNat + 1) (s.getD (⌊r1⌋).toNat 0)
        = s.getD ((⌊r1⌋).toNat + 1) 0 := by
      rw [List.getD_eq_getElem s _ hsucc, List.getD_eq_getElem s 0 hsucc]
    have step1 : interpAt s r1 ≤ s.getD ((⌊r1⌋).toNat + 1) 0 := by
      simp only [interpAt]
      rw [hdef1] at hlohi1 ⊢
      nlinarith [mul_nonneg (sub_nonneg.mpr (le_of_lt hupp1))
        (sub_nonneg.mpr hlohi1)]
    have step2 : s.getD ((⌊r1⌋).toNat + 1) 0 ≤ s.getD (⌊r2⌋).toNat 0 :=
      getD_le_getD_of_sorted hs hlt hi2n 0 0
    have hlohi2 : s.getD (⌊r2⌋).toNat 0
        ≤ s.getD ((⌊r2⌋).toNat + 1) (s.getD (⌊r2⌋).toNat 0) :=
      getD_le_getD_succ hs hi2n
    have step3 : s.getD (⌊r2⌋).toNat 0 ≤ interpAt s r2 := by
      simp only [interpAt]
      nlinarith [mul_nonneg (sub_nonneg.mpr hlow2) (sub_nonneg.mpr hlohi2)]
    exact le_trans step1 (le_trans step2 step3)

theorem outlierLoop_eq_filter (lb ub : ℚ) (l acc : List ℚ) :
    outlierLoop lb ub l acc = acc ++ l.filter (fun x => decide (x < lb ∨ x > ub)) := by
  induction l generalizing acc with
  | nil => simp [outlierLoop]
  | cons a l ih =>
    simp only [outlierLoop]
    by_cases h : a < lb ∨ a > ub
    · rw [if_pos h, ih, List.filter_cons, if_pos (by simpa using h)]
      simp
    · rw [if_neg h, ih, List.filter_cons, if_neg (by simpa using h)]

/-! Claim theorems. -/

theorem pySorted_example : pySorted ([10, 12, 14, 15, 18, 19, 20, 1000] : List ℚ)
    = [10, 12, 14, 15, 18, 19, 20, 1000] := by
  have h : ([10, 12, 14, 15, 18, 19, 20, 1000] : List ℚ).Sorted (· ≤ ·) := by
    norm_num [List.sorted_cons]
  exact h.insertionSort_eq

theorem percentile25_example :
    percentileLinear ([10, 12, 14, 15, 18, 19, 20, 1000] : List ℚ) 25 = 27/2 := by
  have hlen : ([10, 12, 14, 15, 18, 19, 20, 1000] : List ℚ).length = 8 := by simp
  rw [percentileLinear, hlen]
  norm_num
  rw [interpAt, show ⌊(7/4:ℚ)⌋ = 1 by norm_num [Int.floor_eq_iff]]
  norm_num [List.getD_cons_succ, List.getD_cons_zero]

theorem percentile50_example :
    percentileLinear ([10, 12, 14, 15, 18, 19, 20, 1000] : List ℚ) 50 = 33/2 := by
  have hlen : ([10, 12, 14, 15, 18, 19, 20, 1000] : List ℚ).length = 8 := by simp
  rw [percentileLinear, hlen]
  norm_num
  rw [interpAt, show ⌊(7/2:ℚ)⌋ = 3 by norm_num [Int.floor_eq_iff],
    show (3:ℤ).toNat = 3 from rfl]
  norm_num [List.getD_cons_succ, List.getD_cons_zero]

theorem percentile75_example :
    percentileLinear ([10, 12, 14, 15, 18, 19, 20, 1000] : List ℚ) 75 = 77/4 := by
  have hlen : ([10, 12, 14, 15, 18, 19, 20, 1000] : List ℚ).length = 8 := by simp
  rw [percentileLinear, hlen]
  norm_num
  rw [interpAt, show ⌊(21/4:ℚ)⌋ = 5 by norm_num [Int.floor_eq_iff],
    show (5:ℤ).toNat = 5 from rfl]
  norm_num [List.getD_cons_succ, List.getD_cons_zero]

theorem calculate_percentile_example :
    calculate_percentile ([10, 12, 14, 15, 18, 19, 20, 1000] : List ℚ)
      = .ok (27/2, 33/2, 77/4) := by
  rw [calculate_percentile]
  rw [if_neg (by norm_num : ¬ ([10, 12, 14, 15, 18, 19, 20, 1000] : List ℚ).length = 0)]
  simp only [pySorted_example, percentile25_example, percentile50_example,
    percentile75_example]

/-- C2: On the sample [10, 12, 14, 15, 18, 19, 20, 1000] the
linear-interpolation percentiles are p25 = 13.5 = 27/2 and
p75 = 19.25 = 77/4 (with p50 = 16.5), hence IQR = 5.75 = 23/4 and the upper
fence is 27.875 = 223/8, and the outliers operation returns exactly [1000]. -/
theorem example_sample_percentiles_and_outliers :
    calculate_percentile [10, 12, 14, 15, 18, 19, 20, 1000]
      = .ok (27/2, 33/2, 77/4) ∧
    (77/4 : ℚ) - 27/2 = 23/4 ∧
    (77/4 : ℚ) + 3/2 * ((77/4 : ℚ) - 27/2) = 223/8 ∧
    identify_outliers [10, 12, 14, 15, 18, 19, 20, 1000] = .ok [1000] := by
  refine ⟨calculate_percentile_example, by norm_num, by norm_num, ?_⟩
  norm_num [identify_outliers, calculate_percentile_example, pySorted_example,
    List.filter_cons, List.filter_nil, decide_eq_true_eq]

/-- C3: On every non-empty sample, `calculate_percentile` succeeds and its
triple is ascending: p25 ≤ p50 ≤ p75, by monotonicity of the linear
interpolation over the sorted sample. -/
theorem calculate_percentile_ascending (data : List ℚ) (hne : data ≠ []) :
    ∃ p : ℚ × ℚ × ℚ, calculate_percentile data = .ok p ∧ p.1 ≤ p.2.1 ∧ p.2.1 ≤ p.2.2 := by
  have hlen : ¬ data.length = 0 := by simpa [List.length_eq_zero] using hne
  have hs : (pySorted data).Sorted (· ≤ ·) := List.sorted_insertionSort _ _
  have hlen2 : (pySorted data).length = data.length := List.length_insertionSort _ _
  have hpos : 1 ≤ data.length := Nat.one_le_iff_ne_zero.mpr hlen
  have hc : (0:ℚ) ≤ (data.length : ℚ) - 1 := by
    have h1 : (1:ℚ) ≤ (data.length : ℚ) := by exact_mod_cast hpos
    linarith
  have h2550 : percentileLinear (pySorted data) 25 ≤ percentileLinear (pySorted data) 50 := by
    unfold percentileLinear
    rw [hlen2]
    apply interpAt_mono hs
    · nlinarith [hc]
    · nlinarith [hc]
    · rw [hlen2]; nlinarith [hc]
  have h5075 : percentileLinear (pySorted data) 50 ≤ percentileLinear (pySorted data) 75 := by
    unfold percentileLinear
    rw [hlen2]
    apply interpAt_mono hs
    · nlinarith [hc]
    · nlinarith [hc]
    · rw [hlen2]; nlinarith [hc]
  refine ⟨(percentileLinear (pySorted data) 25, percentileLinear (pySorted data) 50,
    percentileLinear (pySorted data) 75), ?_, h2550, h5075⟩
  rw [calculate_percentile, if_neg hlen]

/-- Witness for C3 at a concrete unsorted three-element sample. -/
theorem calculate_percentile_ascending_witness :
    ∃ p : ℚ × ℚ × ℚ, calculate_percentile [3, 1, 2] = .ok p ∧ p.1 ≤ p.2.1 ∧ p.2.1 ≤ p.2.2 :=
  calculate_percentile_ascending [3, 1, 2] (by simp)

/-- C1: On every non-empty sample the outliers call succeeds; with p25 and
p75 the computed percentiles and IQR = p75 - p25, the result is sorted
ascending and holds a value (with its full multiplicity) exactly when the
value occurs in the sample and lies strictly below `p25 - 1.5*IQR` or
strictly above `p75 + 1.5*IQR`; fence-equal and in-fence values never
appear. -/
theorem identify_outliers_spec (data : List ℚ) (hne : data ≠ []) :
    ∃ p : ℚ × ℚ × ℚ, ∃ l : List ℚ,
      calculate_percentile data = .ok p ∧
      identify_outliers data = .ok l ∧
      l.Sorted (· ≤ ·) ∧
      (∀ x : ℚ, x ∈ l ↔ x ∈ data ∧
        (x < p.1 - 3/2 * (p.2.2 - p.1) ∨ x > p.2.2 + 3/2 * (p.2.2 - p.1))) ∧
      (∀ x : ℚ, l.count x =
        if x < p.1 - 3/2 * (p.2.2 - p.1) ∨ x > p.2.2 + 3/2 * (p.2.2 - p.1)
        then data.count x else 0) := by
  have hlen : ¬ data.length = 0 := by simpa [List.length_eq_zero] using hne
  have hcp : calculate_percentile data = .ok (percentileLinear (pySorted data) 25,
      percentileLinear (pySorted data) 50, percentileLinear (pySorted data) 75) := by
    rw [calculate_percentile, if_neg hlen]
  refine ⟨_, (pySorted data).filter (fun x =>
      decide (x < percentileLinear (pySorted data) 25
          - 3/2 * (percentileLinear (pySorted data) 75 - percentileLinear (pySorted data) 25)
        ∨ x > percentileLinear (pySorted data) 75
          + 3/2 * (percentileLinear (pySorted data) 75 - percentileLinear (pySorted data) 25))),
    hcp, ?_, ?_, ?_, ?_⟩
  · rw [identify_outliers, if_neg hlen, hcp]
  · exact (List.sorted_insertionSort _ _).filter _
  · intro x
    simp [List.mem_filter, pySorted, List.mem_insertionSort, decide_eq_true_eq]
  · intro x
    by_cases hx : x < percentileLinear (pySorted data) 25
          - 3/2 * (percentileLinear (pySorted data) 75 - percentileLinear (pySorted data) 25)
        ∨ x > percentileLinear (pySorted data) 75
          + 3/2 * (percentileLinear (pySorted data) 75 - percentileLinear (pySorted data) 25)
    · rw [if_pos hx, List.count_filter (by simpa using hx)]
      exact (List.perm_insertionSort _ data).count_eq x
    · rw [if_neg hx, List.count_eq_zero]
      intro hmem
      exact hx (by simpa using (List.mem_filter.mp hmem).2)

/-- Witness for C1 at the concrete one-element sample [0]. -/
theorem identify_outliers_spec_witness :
    ∃ p : ℚ × ℚ × ℚ, ∃ l : List ℚ,
      calculate_percentile [0] = .ok p ∧
      identify_outliers [0] = .ok l ∧
      l.Sorted (· ≤ ·) ∧
      (∀ x : ℚ, x ∈ l ↔ x ∈ ([0] : List ℚ) ∧
        (x < p.1 - 3/2 * (p.2.2 - p.1) ∨ x > p.2.2 + 3/2 * (p.2.2 - p.1))) ∧
      (∀ x : ℚ, l.count x =
        if x < p.1 - 3/2 * (p.2.2 - p.1) ∨ x > p.2.2 + 3/2 * (p.2.2 - p.1)
        then ([0] : List ℚ).count x else 0) :=
  identify_outliers_spec [0] (by simp)

/-- C4: On every non-empty sample, `calculate_probability` returns exactly
the count of values strictly above the threshold divided by the sample size
(threshold-equal values are not counted), and the result lies in [0, 1]. -/
theorem calculate_probability_spec (data : List ℚ) (t : ℚ) (hne : data ≠ []) :
    ∃ r : ℚ, calculate_probability data t = .ok r ∧
      r = (data.countP (fun x => decide (x > t)) : ℚ) / (data.length : ℚ) ∧
      0 ≤ r ∧ r ≤ 1 := by
  have hlen : ¬ data.length = 0 := by simpa [List.length_eq_zero] using hne
  have hposn : (0:ℚ) < (data.length : ℚ) := by
    exact_mod_cast Nat.pos_of_ne_zero hlen
  refine ⟨_, ?_, rfl, ?_, ?_⟩
  · rw [calculate_probability, if_neg hlen]
  · exact div_nonneg (Nat.cast_nonneg _) (le_of_lt hposn)
  · rw [div_le_one hposn]
    exact_mod_cast List.countP_le_length _

/-- Witness for C4 at the sample [1, 2] with threshold 1: the tie at 1 is
not counted. -/
theorem calculate_probability_spec_witness :
    ∃ r : ℚ, calculate_probability [1, 2] 1 = .ok r ∧
      r = (([1, 2] : List ℚ).countP (fun x => decide (x > 1)) : ℚ)
        / (([1, 2] : List ℚ).length : ℚ) ∧
      0 ≤ r ∧ r ≤ 1 :=
  calculate_probability_spec [1, 2] 1 (by simp)

/-- C5 (amended): `random_sampling` on a sample with fewer than 50 elements
fails with InvalidInput; on a sample of size ≥ 50, for every
without-replacement draw (50 pairwise-distinct positions below the sample
length) it returns exactly 50 elements, each present in the original sample,
and the result uses each sample occurrence at most once (its value counts
are bounded by the sample's); returned values may still repeat when the
sample itself contains duplicate values. -/
theorem random_sampling_spec (data : List ℚ) (draw : List ℕ) :
    (data.length < 50 → random_sampling data draw = .error .invalidInput) ∧
    (50 ≤ data.length → draw.Nodup → draw.length = 50 →
      (∀ i ∈ draw, i < data.length) →
      ∃ l : List ℚ, random_sampling data draw = .ok l ∧ l.length = 50 ∧
        (∀ x ∈ l, x ∈ data) ∧ (∀ x : ℚ, l.count x ≤ data.count x)) := by
  constructor
  · intro h
    rw [random_sampling, if_pos h]
  · intro hge hnd hdl hmem
    have hnlt : ¬ data.length < 50 := not_lt.mpr hge
    refine ⟨draw.map (fun i => data.getD i 0), ?_, ?_, ?_, ?_⟩
    · rw [random_sampling, if_neg hnlt]
    · simp [hdl]
    · intro x hx
      rcases List.mem_map.mp hx with ⟨i, hi, rfl⟩
      have hilt := hmem i hi
      rw [List.getD_eq_getElem data 0 hilt]
      exact List.getElem_mem hilt
    · have hsub : draw ⊆ List.range data.length := fun i hi =>
        List.mem_range.mpr (hmem i hi)
      have hsp : List.Subperm draw (List.range data.length) := hnd.subperm hsub
      rcases hsp with ⟨d', hperm, hsl⟩
      have hmapsl : List.Sublist (d'.map (fun i => data.getD i 0))
          ((List.range data.length).map (fun i => data.getD i 0)) := hsl.map _
      rw [map_getD_range] at hmapsl
      have hmapperm : List.Perm (d'.map (fun i => data.getD i 0))
          (draw.map (fun i => data.getD i 0)) := hperm.map _
      have hfin : List.Subperm (draw.map (fun i => data.getD i 0)) data :=
        ⟨d'.map (fun i => data.getD i 0), hmapperm, hmapsl⟩
      intro x
      exact hfin.count_le x

/-- Witness for C5 at concrete inputs: a one-element sample fails, and the
50-element sample 0,...,49 with the identity draw succeeds. -/
theorem random_sampling_spec_witness :
    random_sampling [(1:ℚ)] [0] = .error .invalidInput ∧
    (∃ l : List ℚ,
      random_sampling (List.replicate 50 (0:ℚ)) (List.range 50) = .ok l ∧
      l.length = 50 ∧ (∀ x ∈ l, x ∈ List.replicate 50 (0:ℚ)) ∧
      (∀ x : ℚ, l.count x ≤ (List.replicate 50 (0:ℚ)).count x)) := by
  constructor
  · exact (random_sampling_spec [(1:ℚ)] [0]).1 (by simp)
  · exact (random_sampling_spec (List.replicate 50 (0:ℚ)) (List.range 50)).2
      (by simp) (List.nodup_range 50) (List.length_range 50)
      (fun i hi => by simpa using List.mem_range.mp hi)

/-- Counterexample to C5 as stated: on the 50-element sample of all 5s, the
identity draw is a legitimate without-replacement draw (50 pairwise-distinct
in-range positions), yet the returned 50 elements are all equal, so the
result does contain duplicates. -/
theorem random_sampling_duplicates_counterexample :
    (List.range 50).Nodup ∧ (List.range 50).length = 50 ∧
    ((List.range 50).all
      (fun i => decide (i < (List.replicate 50 (5:ℚ)).length))) = true ∧
    random_sampling (List.replicate 50 (5:ℚ)) (List.range 50)
      = .ok (List.replicate 50 (5:ℚ)) ∧
    ¬ (List.replicate 50 (5:ℚ)).Nodup := by
  refine ⟨List.nodup_range 50, List.length_range 50, ?_, ?_, ?_⟩
  · simp
  · rw [random_sampling,
      if_neg (by simp : ¬ (List.replicate 50 (5:ℚ)).length < 50)]
    have h := map_getD_range (List.replicate 50 (5:ℚ))
    rw [List.length_replicate] at h
    rw [h]
  · simp [List.nodup_replicate]

/-- C6: Every core operation raises InvalidInput (Python ValueError) on an
empty sample: the emptiness validation is the first data-dependent step of
each operation and the error is returned with no partial result. -/
theorem empty_sample_raises_invalid_input (t mu : ℚ) :
    descriptive_statistics [] = .error .invalidInput ∧
    calculate_percentile [] = .error .invalidInput ∧
    identify_outliers [] = .error .invalidInput ∧
    calculate_probability [] t = .error .invalidInput ∧
    hypothesis_testing [] mu = .error .invalidInput :=
  ⟨rfl, rfl, rfl, rfl, rfl⟩

/-- C7 (documents the source bug): calling `generate_height_data` with a
non-numeric standard deviation hits the source's combined
`not isinstance(std_dev, (int, float)) or std_dev <= 0` check and raises
ValueError (the InvalidInput kind), not TypeError (the TypeMismatch kind)
that the claim and the function's own docstring announce. -/
theorem generate_height_data_nonnumeric_std_dev_kind :
    generate_height_data (.pyInt 1000) (.pyInt 170) (.pyStr "ten")
        = .error .invalidInput ∧
    generate_height_data (.pyInt 1000) (.pyInt 170) (.pyStr "ten")
        ≠ .error .typeMismatch := by
  constructor
  · decide
  · decide

/-- C8: The body of `identify_outliers` never writes into its input: run
over an explicit store, the `height_data` component of the final store is
the input one, and the only effect is the returned value, which agrees with
the pure function. -/
theorem identify_outliers_frame (st : OutlierStore) :
    (identify_outliers_body st).1.height_data = st.height_data ∧
    (identify_outliers_body st).2 = identify_outliers st.height_data := by
  unfold identify_outliers_body identify_outliers
  by_cases h : st.height_data.length = 0
  · simp [h]
  · simp only [h, if_false]
    cases hp : calculate_percentile st.height_data with
    | error e => simp
    | ok ps => simp [outlierLoop_eq_filter]

/-- C9: On a frame with the required columns and boolean Disease in which no
row has Disease true, both group counts are 0, so `max` is 0 and the Python
integer division `(higher - lower) / higher` raises an uncaught
ZeroDivisionError. -/
theorem who_suffers_no_disease_div_zero (df : List Row)
    (h : ∀ r ∈ df, r.disease = false) :
    who_suffers_more_from_disease df = .error .zeroDivisionError := by
  have hm : men_with_disease df = 0 := by
    simp only [men_with_disease, List.length_eq_zero, List.filter_eq_nil_iff]
    intro r hr
    simp [h r hr]
  have hw : women_with_disease df = 0 := by
    simp only [women_with_disease, List.length_eq_zero, List.filter_eq_nil_iff]
    intro r hr
    simp [h r hr]
  simp [who_suffers_more_from_disease, hm, hw]

/-- Witness for C9 at a concrete two-row frame with no diseased row. -/
theorem who_suffers_no_disease_div_zero_witness :
    who_suffers_more_from_disease [⟨"male", false⟩, ⟨"female", false⟩]
      = .error .zeroDivisionError :=
  who_suffers_no_disease_div_zero _ (by decide)

/-- C10: When the diseased-men count equals the diseased-women count and is
positive, the tie falls into the `else` branch: the function returns
('women', 0), a zero percentage difference attributed to women. -/
theorem who_suffers_tie_returns_women (df : List Row)
    (heq : men_with_disease df = women_with_disease df)
    (hpos : 0 < men_with_disease df) :
    who_suffers_more_from_disease df = .ok ("women", 0) := by
  simp only [who_suffers_more_from_disease, ← heq, max_self, min_self]
  rw [if_neg (by omega : ¬ men_with_disease df = 0)]
  rw [if_neg (by omega : ¬ men_with_disease df > men_with_disease df)]
  simp

/-- Witness for C10 at a concrete frame with one diseased man and one
diseased woman. -/
theorem who_suffers_tie_returns_women_witness :
    who_suffers_more_from_disease [⟨"male", true⟩, ⟨"female", true⟩]
      = .ok ("women", 0) :=
  who_suffers_tie_returns_women _ (by decide) (by decide)

end HeartStats
